import Mathlib

/-!
Verification of the multi-turn RAG chain in
src/create_bot_from_volume_folder/multi_turn_rag_chain.py.

The chain is a fixed composition of string formatting, list processing and
calls to two external collaborators: a language model and a vector-search
index.  Both collaborators, the serialization that Python applies to the
chat-history list inside a prompt template, and the configured templates
are modelled as parameters of the embedding; all pipeline logic is
translated from the source.
-/

/-- A chat turn: a Python dict with keys "role" and "content". -/
structure ChatMessage where
  role : String
  content : String
deriving DecidableEq, Repr

/-- Message values built by the chain: HumanMessage and AIMessage from
format_chat_history_for_prompt, plus the system message of the final
ChatPromptTemplate. -/
inductive Message where
  | system (content : String)
  | human (content : String)
  | ai (content : String)
deriving DecidableEq, Repr

/-- extract_user_query_string: returns chat_messages_array[-1]["content"].
Indexing with -1 raises on an empty list in Python; that failure is
modelled as none. -/
def extract_user_query_string (chat_messages_array : List ChatMessage) : Option String :=
  (chat_messages_array.getLast?).map (fun m => m.content)

/-- extract_chat_history: returns chat_messages_array[:-1] (everything
before the last message; the empty list when the input is empty). -/
def extract_chat_history (chat_messages_array : List ChatMessage) : List ChatMessage :=
  chat_messages_array.dropLast

/-- The loop body of format_chat_history_for_prompt: append a HumanMessage
for role "user", an AIMessage for role "assistant", and skip any other
role. -/
def histStep (acc : List Message) (chat_message : ChatMessage) : List Message :=
  if chat_message.role == "user" then acc ++ [Message.human chat_message.content]
  else if chat_message.role == "assistant" then acc ++ [Message.ai chat_message.content]
  else acc

/-- format_chat_history_for_prompt: extracts the history and converts each
turn whose role is "user" or "assistant" into the corresponding message,
in order, skipping turns with any other role. -/
def format_chat_history_for_prompt (chat_messages_array : List ChatMessage) : List Message :=
  let history := extract_chat_history chat_messages_array
  if history.length > 0 then history.foldl histStep [] else []

/-- A document returned by the vector index: page_content together with the
title metadata column that format_context interpolates. -/
structure Doc where
  page_content : String
  title : String
deriving DecidableEq, Repr

/-- format_context: applies the configured chunk template to each document
(chunk_text := page_content, document_uri := the title metadata column) and
joins the results with the empty separator.  The configured template string
is modelled as the binary function that its str.format induces. -/
def format_context (chunk_template : String → String → String) (docs : List Doc) : String :=
  String.join (docs.map (fun d => chunk_template d.page_content d.title))

/-- query_rewrite_template rendered with the serialized chat history and the
question (the literal template string of the source, with its two
placeholders substituted). -/
def query_rewrite_template_render (chat_history : String) (question : String) : String :=
  "Based on the chat history below, we want you to generate a query for an external data source to retrieve relevant documents so that we can better answer the question. The query should be in natural language. The external data source uses similarity search to search for relevant documents in a vector space. So the query should be similar to the relevant documents semantically. Answer with only the query. Do not add explanation.\n\nChat history: "
    ++ chat_history ++ "\n\nQuestion: " ++ question

/-- get_topic_template rendered with the question (the literal template
string of the source, with its placeholder substituted). -/
def get_topic_template_render (question : String) : String :=
  "Based on the question provieded by the users classify the topic in one of below categories delimited by a comma only provide the classification and no other text.\n--- list of topics\ncancer vaccines,stem cell therapy,cellular reprogramming\n--- end list of topics\nQuestion: "
    ++ question

/-- The closed set of topic labels listed in get_topic_template. -/
def topic_labels : List String :=
  ["cancer vaccines", "stem cell therapy", "cellular reprogramming"]

/-- A prompt sent to the language model: either a rendered string (from a
PromptTemplate) or a structured message sequence (from the final
ChatPromptTemplate). -/
inductive LLMPrompt where
  | text (s : String)
  | messages (ms : List Message)
deriving DecidableEq, Repr

/-- A nearest-neighbor search request: the query string and the value of the
topic equality filter in search_kwargs, none when search_kwargs carries no
filter. -/
structure SearchCall where
  query : String
  topicFilter : Option String
deriving DecidableEq, Repr

/-- A call to one of the two external collaborators. -/
inductive CollabCall where
  | llmCall (p : LLMPrompt)
  | vsCall (c : SearchCall)
deriving DecidableEq, Repr

/-- The ambient collaborators and configuration of the chain: the language
model, the vector index, the Python str() serialization of the history list
used by PromptTemplate.format, the configured chunk template, and the
configured system prompt template rendered with (context, question). -/
structure ChainEnv where
  llm : LLMPrompt → String
  vs : SearchCall → List Doc
  strOfHistory : List ChatMessage → String
  chunk_template : String → String → String
  llm_system_prompt : String → String → String

/-- The RunnableBranch computing rephrased_question: when chat_history is
nonempty, render query_rewrite_prompt and call the model (StrOutputParser
returns the message text unchanged); otherwise pass the question through.
Also returns the list of language-model calls the branch makes. -/
def query_rewriter (llm : LLMPrompt → String) (strOfHistory : List ChatMessage → String)
    (question : String) (chat_history : List ChatMessage) : String × List CollabCall :=
  if chat_history.length > 0 then
    let p := LLMPrompt.text (query_rewrite_template_render (strOfHistory chat_history) question)
    (llm p, [CollabCall.llmCall p])
  else
    (question, [])

/-- Python str.strip(): drop leading and trailing whitespace characters. -/
def pyStrip (s : String) : String :=
  String.mk (((s.data.dropWhile Char.isWhitespace).reverse.dropWhile Char.isWhitespace).reverse)

/-- get_retriever: builds search_kwargs whose filter sets topic to
filter_value.strip(), then invokes the vector search on the rephrased
question.  Returns the documents together with the issued search call. -/
def get_retriever (vs : SearchCall → List Doc)
    (rephrased_question filter_value : String) : List Doc × SearchCall :=
  let call : SearchCall :=
    { query := rephrased_question, topicFilter := some (pyStrip filter_value) }
  (vs call, call)

/-- The values produced by one invocation of the chain, together with the
intermediate values the specification talks about and the trace of
collaborator calls. -/
structure ChainResult where
  answer : String
  question : String
  rephrased_question : String
  filter_value : String
  formattedHistory : List Message
  promptMessages : List Message
  rewriterCalls : List CollabCall
  calls : List CollabCall
deriving DecidableEq, Repr

/-- The chain after question extraction.  Stage 1 also computed the history
and the formatted history from the messages list; stage 2 conditionally
rewrites the question, and also runs the standalone (unfiltered) retriever
on the original question under the key "retriever"; stage 3
classifies the rephrased question, runs the filtered retrieval through
get_retriever, formats the context, and drops the "retriever" key; the
final prompt is system message, history placeholder, and a user message
holding the original question, which the model answers. -/
def runChainCore (env : ChainEnv) (question : String) (msgs : List ChatMessage) : ChainResult :=
    let chat_history := extract_chat_history msgs
    let formatted_chat_history := format_chat_history_for_prompt msgs
    let rq := query_rewriter env.llm env.strOfHistory question chat_history
    let rephrased_question := rq.1
    let unfiltered : SearchCall := { query := question, topicFilter := none }
    let _docs_dropped := env.vs unfiltered
    let topicPrompt := LLMPrompt.text (get_topic_template_render rephrased_question)
    let filter_value := env.llm topicPrompt
    let ret := get_retriever env.vs rephrased_question filter_value
    let context := format_context env.chunk_template ret.1
    let promptMessages :=
      Message.system (env.llm_system_prompt context question) ::
        formatted_chat_history ++ [Message.human question]
    let finalPrompt := LLMPrompt.messages promptMessages
    let answer := env.llm finalPrompt
    {
      answer := answer
      question := question
      rephrased_question := rephrased_question
      filter_value := filter_value
      formattedHistory := formatted_chat_history
      promptMessages := promptMessages
      rewriterCalls := rq.2
      calls := rq.2 ++ [CollabCall.vsCall unfiltered, CollabCall.llmCall topicPrompt,
        CollabCall.vsCall ret.2, CollabCall.llmCall finalPrompt]
    }

/-- One invocation of the chain on the input messages list: stage 1 extracts
the question (none models the Python IndexError on an empty list), the rest
of the pipeline is runChainCore. -/
def runChain (env : ChainEnv) (msgs : List ChatMessage) : Option ChainResult :=
  (extract_user_query_string msgs).map (fun question => runChainCore env question msgs)

/-- The per-turn conversion of format_chat_history_for_prompt as a partial
map: user and assistant turns map to messages, other roles to none. -/
def msgToMessage? (m : ChatMessage) : Option Message :=
  if m.role == "user" then some (Message.human m.content)
  else if m.role == "assistant" then some (Message.ai m.content)
  else none

/-- A concrete environment used to instantiate theorems on closed inputs. -/
def testEnv : ChainEnv :=
  { llm := fun _ => "model output"
    vs := fun _ => []
    strOfHistory := fun _ => "serialized history"
    chunk_template := fun a b => a ++ b
    llm_system_prompt := fun c _ => c }

/-- An environment whose language model answers every prompt with a string
that is not one of the configured topic labels. -/
def badEnv : ChainEnv :=
  { llm := fun _ => "not sure"
    vs := fun _ => []
    strOfHistory := fun _ => "serialized history"
    chunk_template := fun a b => a ++ b
    llm_system_prompt := fun c _ => c }

/-- An environment whose language model answers every prompt with a string
carrying surrounding whitespace. -/
def wsEnv : ChainEnv :=
  { llm := fun _ => " a query "
    vs := fun _ => []
    strOfHistory := fun _ => "serialized history"
    chunk_template := fun a b => a ++ b
    llm_system_prompt := fun c _ => c }

/-- A vector index that answers unfiltered searches with one document and
filtered searches with none; it agrees with testEnv.vs on every filtered
search. -/
def vs2w : SearchCall → List Doc :=
  fun c => if c.topicFilter = none then [⟨"page", "title"⟩] else []

/-! ## Helper lemmas -/

theorem strAppend_assoc (a b c : String) : a ++ b ++ c = a ++ (b ++ c) := by
  apply String.ext
  simp [List.append_assoc]

theorem join_foldl_eq : ∀ (l : List String) (a : String),
    l.foldl (fun r s => r ++ s) a = a ++ String.join l := by
  intro l
  induction l with
  | nil => intro a; simp [String.join]
  | cons s t ih =>
    intro a
    have h2 : String.join (s :: t) = s ++ String.join t := by
      simp only [String.join, List.foldl_cons, String.empty_append]
      exact ih s
    simp only [List.foldl_cons]
    rw [ih (a ++ s), h2, strAppend_assoc]

theorem join_cons_eq (s : String) (l : List String) :
    String.join (s :: l) = s ++ String.join l := by
  simp only [String.join, List.foldl_cons, String.empty_append]
  exact join_foldl_eq l s

theorem histStep_foldl : ∀ (l : List ChatMessage) (acc : List Message),
    l.foldl histStep acc = acc ++ l.filterMap msgToMessage? := by
  intro l
  induction l with
  | nil => intro acc; simp
  | cons m t ih =>
    intro acc
    simp only [List.foldl_cons, List.filterMap_cons, histStep, msgToMessage?]
    by_cases h1 : m.role = "user"
    · simp [h1, ih, List.append_assoc]
    · by_cases h2 : m.role = "assistant"
      · simp [h1, h2, ih, List.append_assoc]
      · simp [h1, h2, ih]

theorem format_hist_eq_filterMap (msgs : List ChatMessage) :
    format_chat_history_for_prompt msgs = (extract_chat_history msgs).filterMap msgToMessage? := by
  simp only [format_chat_history_for_prompt]
  by_cases h : (extract_chat_history msgs).length > 0
  · rw [if_pos h, histStep_foldl]
    simp
  · rw [if_neg h]
    cases hE : extract_chat_history msgs with
    | nil => simp
    | cons a t => rw [hE] at h; simp at h

theorem length_filterMap_lt_of_none {α β : Type} {f : α → Option β} :
    ∀ (l : List α) (t : α), t ∈ l → f t = none → (l.filterMap f).length < l.length := by
  intro l
  induction l with
  | nil => intro t ht; cases ht
  | cons a tl ih =>
    intro t ht hf
    rcases List.mem_cons.mp ht with rfl | hmem
    · simp only [List.filterMap_cons, hf, List.length_cons]
      exact Nat.lt_succ_of_le (List.length_filterMap_le f tl)
    · simp only [List.filterMap_cons, List.length_cons]
      cases hfa : f a with
      | none => exact Nat.lt_succ_of_lt (ih t hmem hf)
      | some b => simpa using Nat.succ_lt_succ (ih t hmem hf)

theorem runChain_eq_some {env : ChainEnv} {msgs : List ChatMessage} {q : String}
    (hq : extract_user_query_string msgs = some q) :
    runChain env msgs = some (runChainCore env q msgs) := by
  simp [runChain, hq]

theorem getLast_of_hist_nonempty {msgs : List ChatMessage}
    (h : (extract_chat_history msgs).length > 0) :
    ∃ m, msgs.getLast? = some m := by
  cases msgs with
  | nil => simp [extract_chat_history] at h
  | cons a t =>
    exact ⟨(a :: t).getLast (by simp), List.getLast?_eq_getLast _ _⟩

/-! ## Claims -/

/-- C1, counterexample: with a model that classifies the question as
"not sure" — which matches no configured topic label — the pipeline does
not fail; it issues the filtered vector search with the unmatched string
as the raw topic filter value. -/
theorem C1_counterexample :
    ∃ r, runChain badEnv [⟨"user", "hello"⟩] = some r ∧
      CollabCall.vsCall { query := "hello", topicFilter := some "not sure" } ∈ r.calls ∧
      "not sure" ∉ topic_labels := by
  refine ⟨_, runChain_eq_some rfl, ?_, by decide⟩
  decide

/-- C1, amended: the topic classifier output is never validated against the
configured labels; whatever the classifier model returns is trimmed and
passed through as the topic filter value of the filtered vector search, and
the pipeline never fails on an unmatched output. -/
theorem C1_filter_passthrough :
    ∀ (env : ChainEnv) (msgs : List ChatMessage) (r : ChainResult),
    runChain env msgs = some r →
    r.filter_value = env.llm (LLMPrompt.text (get_topic_template_render r.rephrased_question)) ∧
    CollabCall.vsCall
      { query := r.rephrased_question, topicFilter := some (pyStrip r.filter_value) } ∈ r.calls := by
  intro env msgs r h
  cases hq : extract_user_query_string msgs with
  | none => rw [runChain, hq] at h; cases h
  | some q =>
    rw [runChain_eq_some hq] at h
    obtain rfl : runChainCore env q msgs = r := Option.some.inj h
    constructor
    · rfl
    · simp [runChainCore, get_retriever]

/-- C1, witness for the amended theorem at a concrete input. -/
theorem C1_filter_passthrough_witness :
    ∃ r, runChain testEnv [⟨"user", "w1"⟩] = some r ∧
      r.filter_value
        = testEnv.llm (LLMPrompt.text (get_topic_template_render r.rephrased_question)) ∧
      CollabCall.vsCall
        { query := r.rephrased_question, topicFilter := some (pyStrip r.filter_value) } ∈ r.calls :=
  ⟨_, runChain_eq_some rfl, C1_filter_passthrough testEnv [⟨"user", "w1"⟩] _ rfl⟩

/-- C2, counterexample: a conversation whose last turn is authored by the
assistant is accepted by extract_user_query_string, which returns that
content as the question instead of failing. -/
theorem C2_counterexample :
    extract_user_query_string [⟨"assistant", "hi"⟩] = some "hi" := by
  decide

/-- C2, amended: the normalizer performs no role validation and has no
dedicated error: it fails only on the empty conversation (an uncaught index
error, modelled as none); on every non-empty conversation, whatever the
role of the last turn, it returns the last turn content as the question and
all preceding turns as the history. -/
theorem C2_normalizer_amended :
    extract_user_query_string ([] : List ChatMessage) = none ∧
    ∀ (msgs : List ChatMessage) (m : ChatMessage), msgs.getLast? = some m →
      extract_user_query_string msgs = some m.content ∧
      extract_chat_history msgs ++ [m] = msgs := by
  refine ⟨rfl, ?_⟩
  intro msgs m h
  constructor
  · simp [extract_user_query_string, h]
  · exact List.dropLast_append_getLast? m h

/-- C2, witness for the amended theorem at a concrete input. -/
theorem C2_normalizer_amended_witness :
    extract_user_query_string [⟨"user", "w2a"⟩, ⟨"assistant", "w2b"⟩] = some "w2b" ∧
    extract_chat_history [⟨"user", "w2a"⟩, ⟨"assistant", "w2b"⟩] ++ [⟨"assistant", "w2b"⟩]
      = [⟨"user", "w2a"⟩, ⟨"assistant", "w2b"⟩] :=
  C2_normalizer_amended.2 [⟨"user", "w2a"⟩, ⟨"assistant", "w2b"⟩] ⟨"assistant", "w2b"⟩ rfl

/-- C3: on a single-turn conversation the history is empty, the rewrite
branch is not taken, the rephrased question is the turn content unchanged,
and the rewriter makes zero language-model calls. -/
theorem C3_no_history_no_rewrite :
    ∀ (env : ChainEnv) (m : ChatMessage),
    ∃ r, runChain env [m] = some r ∧
      r.rephrased_question = m.content ∧ r.rewriterCalls = [] := by
  intro env m
  refine ⟨_, @runChain_eq_some env [m] m.content rfl, ?_, ?_⟩
  · simp [runChainCore, query_rewriter, extract_chat_history]
  · simp [runChainCore, query_rewriter, extract_chat_history]

/-- C4: the final message of the structured prompt handed to the Answer
Generator is a user message holding the original last-turn content
verbatim, whether or not rewriting occurred. -/
theorem C4_original_question_final_message :
    ∀ (env : ChainEnv) (msgs : List ChatMessage) (m : ChatMessage),
    msgs.getLast? = some m →
    ∃ r, runChain env msgs = some r ∧
      r.promptMessages.getLast? = some (Message.human m.content) := by
  intro env msgs m h
  refine ⟨_, @runChain_eq_some env msgs m.content
    (by simp [extract_user_query_string, h]), ?_⟩
  show (Message.system _ ::
      (format_chat_history_for_prompt msgs ++ [Message.human m.content])).getLast? =
    some (Message.human m.content)
  rw [← List.cons_append, List.getLast?_concat]

/-- C4, witness at a concrete input. -/
theorem C4_original_question_final_message_witness :
    ∃ r, runChain testEnv [⟨"user", "w4"⟩] = some r ∧
      r.promptMessages.getLast? = some (Message.human "w4") :=
  C4_original_question_final_message testEnv [⟨"user", "w4"⟩] ⟨"user", "w4"⟩ rfl

/-- C5, counterexample: with a model whose answer carries surrounding
whitespace, the rewriter output keeps that whitespace: StrOutputParser does
not strip it, so the rewriter does not return the trimmed model output. -/
theorem C5_counterexample :
    ∃ r, runChain wsEnv [⟨"user", "first"⟩, ⟨"user", "second"⟩] = some r ∧
      r.rephrased_question = " a query " ∧
      r.rephrased_question ≠ pyStrip " a query " := by
  refine ⟨_, @runChain_eq_some wsEnv _ "second" rfl, ?_, ?_⟩ <;> decide

/-- C5, amended: on every conversation with at least one prior turn the
rewriter issues exactly one language-model call and returns the model text
output unchanged, without trimming surrounding whitespace. -/
theorem C5_rewriter_single_call :
    ∀ (env : ChainEnv) (msgs : List ChatMessage),
    (extract_chat_history msgs).length > 0 →
    ∃ r p, runChain env msgs = some r ∧
      r.rewriterCalls = [CollabCall.llmCall p] ∧
      r.rephrased_question = env.llm p := by
  intro env msgs h
  obtain ⟨m, hm⟩ := getLast_of_hist_nonempty h
  refine ⟨_,
    LLMPrompt.text (query_rewrite_template_render
      (env.strOfHistory (extract_chat_history msgs)) m.content),
    @runChain_eq_some env msgs m.content (by simp [extract_user_query_string, hm]),
    ?_, ?_⟩
  · simp [runChainCore, query_rewriter, h]
  · simp [runChainCore, query_rewriter, h]

/-- C5, witness for the amended theorem at a concrete input. -/
theorem C5_rewriter_single_call_witness :
    ∃ r p, runChain testEnv [⟨"user", "w5a"⟩, ⟨"user", "w5b"⟩] = some r ∧
      r.rewriterCalls = [CollabCall.llmCall p] ∧
      r.rephrased_question = testEnv.llm p :=
  C5_rewriter_single_call testEnv [⟨"user", "w5a"⟩, ⟨"user", "w5b"⟩] (by decide)

/-- C6: on a multi-turn conversation the rephrased question is the rewriter
model output; that same string is rendered into the topic-classification
prompt and used as the query of the filtered retrieval, whose topic filter
equals the stripped classifier output. -/
theorem C6_rephrased_drives_retrieval :
    ∀ (env : ChainEnv) (msgs : List ChatMessage) (m : ChatMessage),
    msgs.getLast? = some m →
    (extract_chat_history msgs).length > 0 →
    ∃ r, runChain env msgs = some r ∧
      r.rephrased_question =
        env.llm (LLMPrompt.text (query_rewrite_template_render
          (env.strOfHistory (extract_chat_history msgs)) m.content)) ∧
      CollabCall.llmCall (LLMPrompt.text (get_topic_template_render r.rephrased_question))
        ∈ r.calls ∧
      CollabCall.vsCall
          { query := r.rephrased_question,
            topicFilter := some (pyStrip (env.llm (LLMPrompt.text
              (get_topic_template_render r.rephrased_question)))) } ∈ r.calls := by
  intro env msgs m hm h
  refine ⟨_, @runChain_eq_some env msgs m.content
    (by simp [extract_user_query_string, hm]), ?_, ?_, ?_⟩
  · simp [runChainCore, query_rewriter, h]
  · simp [runChainCore, query_rewriter, get_retriever, h]
  · simp [runChainCore, query_rewriter, get_retriever, h]

/-- C6, witness at a concrete input. -/
theorem C6_rephrased_drives_retrieval_witness :
    ∃ r, runChain testEnv [⟨"user", "w6a"⟩, ⟨"user", "w6b"⟩] = some r ∧
      r.rephrased_question =
        testEnv.llm (LLMPrompt.text (query_rewrite_template_render
          (testEnv.strOfHistory (extract_chat_history [⟨"user", "w6a"⟩, ⟨"user", "w6b"⟩]))
          "w6b")) ∧
      CollabCall.llmCall (LLMPrompt.text (get_topic_template_render r.rephrased_question))
        ∈ r.calls ∧
      CollabCall.vsCall
          { query := r.rephrased_question,
            topicFilter := some (pyStrip (testEnv.llm (LLMPrompt.text
              (get_topic_template_render r.rephrased_question)))) } ∈ r.calls :=
  C6_rephrased_drives_retrieval testEnv [⟨"user", "w6a"⟩, ⟨"user", "w6b"⟩]
    ⟨"user", "w6b"⟩ rfl (by decide)

/-- C7: the formatted context is the concatenation, in the given order and
with no separator beyond what the template produces, of the template
applied to each chunk text and title; the empty chunk sequence yields the
empty string rather than an error. -/
theorem C7_format_context_concat :
    ∀ (tmpl : String → String → String),
    format_context tmpl [] = "" ∧
    ∀ (d : Doc) (ds : List Doc),
      format_context tmpl (d :: ds) =
        tmpl d.page_content d.title ++ format_context tmpl ds := by
  intro tmpl
  refine ⟨rfl, ?_⟩
  intro d ds
  exact join_cons_eq (tmpl d.page_content d.title)
    (ds.map (fun d => tmpl d.page_content d.title))

/-- C8: when every prior turn has role user or assistant, the formatted
history is exactly the prior turns, in chronological order, each content
unchanged and each role mapped to the corresponding message type. -/
theorem C8_history_formatted_in_order :
    ∀ (msgs : List ChatMessage),
    (∀ m ∈ extract_chat_history msgs, m.role = "user" ∨ m.role = "assistant") →
    format_chat_history_for_prompt msgs =
      (extract_chat_history msgs).map
        (fun m => if m.role == "user" then Message.human m.content
                  else Message.ai m.content) := by
  intro msgs h
  rw [format_hist_eq_filterMap]
  revert h
  generalize extract_chat_history msgs = l
  induction l with
  | nil => intro h; rfl
  | cons a t ih =>
    intro h
    have ht := ih (fun m hm => h m (List.mem_cons_of_mem a hm))
    rcases h a (List.mem_cons_self a t) with ha | ha <;>
      simp [List.filterMap_cons, msgToMessage?, ha, ht]

/-- C8, witness at a concrete input. -/
theorem C8_history_formatted_in_order_witness :
    format_chat_history_for_prompt [⟨"user", "w8a"⟩, ⟨"assistant", "w8b"⟩, ⟨"user", "w8c"⟩]
      = [Message.human "w8a", Message.ai "w8b"] :=
  (C8_history_formatted_in_order
    [⟨"user", "w8a"⟩, ⟨"assistant", "w8b"⟩, ⟨"user", "w8c"⟩] (by decide)).trans (by decide)

/-- C9: the chain issues an unfiltered vector search on the original
last-turn question, and the whole result of the chain is unchanged under
any modification of what that unfiltered search returns: two vector indexes
that agree on filtered searches give identical results. -/
theorem C9_unfiltered_search_ignored :
    ∀ (env : ChainEnv) (vs2 : SearchCall → List Doc)
      (msgs : List ChatMessage) (m : ChatMessage),
    msgs.getLast? = some m →
    (∀ c : SearchCall, c.topicFilter ≠ none → env.vs c = vs2 c) →
    runChain { env with vs := vs2 } msgs = runChain env msgs ∧
    ∃ r, runChain env msgs = some r ∧
      CollabCall.vsCall { query := m.content, topicFilter := none } ∈ r.calls := by
  intro env vs2 msgs m hm hvs
  have hq : extract_user_query_string msgs = some m.content := by
    simp [extract_user_query_string, hm]
  constructor
  · rw [@runChain_eq_some { env with vs := vs2 } msgs m.content hq,
      @runChain_eq_some env msgs m.content hq]
    have hcall : ∀ q fv,
        env.vs { query := q, topicFilter := some fv }
          = vs2 { query := q, topicFilter := some fv } :=
      fun q fv => hvs _ (by simp)
    simp only [runChainCore, get_retriever, hcall]
  · exact ⟨_, @runChain_eq_some env msgs m.content hq, by simp [runChainCore]⟩

/-- C9, witness at a concrete input. -/
theorem C9_unfiltered_search_ignored_witness :
    runChain { testEnv with vs := vs2w } [⟨"user", "w9"⟩] = runChain testEnv [⟨"user", "w9"⟩] ∧
    ∃ r, runChain testEnv [⟨"user", "w9"⟩] = some r ∧
      CollabCall.vsCall { query := "w9", topicFilter := none } ∈ r.calls :=
  C9_unfiltered_search_ignored testEnv vs2w [⟨"user", "w9"⟩] ⟨"user", "w9"⟩ rfl
    (fun c hc => by simp [testEnv, vs2w, hc])

/-- C10: a prior turn whose role is neither user nor assistant is silently
dropped from the formatted history, while the history that contains it
still triggers the rewrite branch, and the chain raises no error. -/
theorem C10_unknown_role_skipped :
    ∀ (env : ChainEnv) (msgs : List ChatMessage) (t : ChatMessage),
    t ∈ extract_chat_history msgs → t.role ≠ "user" → t.role ≠ "assistant" →
    ∃ r, runChain env msgs = some r ∧
      r.rewriterCalls.length = 1 ∧
      r.formattedHistory = (extract_chat_history msgs).filterMap msgToMessage? ∧
      r.formattedHistory.length < (extract_chat_history msgs).length := by
  intro env msgs t ht h1 h2
  have hlen : (extract_chat_history msgs).length > 0 :=
    List.length_pos.mpr (List.ne_nil_of_mem ht)
  obtain ⟨m, hm⟩ := getLast_of_hist_nonempty hlen
  have hfm := format_hist_eq_filterMap msgs
  refine ⟨_, @runChain_eq_some env msgs m.content
    (by simp [extract_user_query_string, hm]), ?_, ?_, ?_⟩
  · simp [runChainCore, query_rewriter, hlen]
  · simpa [runChainCore] using hfm
  · have hnone : msgToMessage? t = none := by simp [msgToMessage?, h1, h2]
    have hlt := length_filterMap_lt_of_none (extract_chat_history msgs) t ht hnone
    simpa [runChainCore, hfm] using hlt

/-- C10, witness at a concrete input. -/
theorem C10_unknown_role_skipped_witness :
    ∃ r, runChain testEnv [⟨"system", "w10s"⟩, ⟨"user", "w10q"⟩] = some r ∧
      r.rewriterCalls.length = 1 ∧
      r.formattedHistory
        = (extract_chat_history [⟨"system", "w10s"⟩, ⟨"user", "w10q"⟩]).filterMap
            msgToMessage? ∧
      r.formattedHistory.length
        < (extract_chat_history [⟨"system", "w10s"⟩, ⟨"user", "w10q"⟩]).length :=
  C10_unknown_role_skipped testEnv [⟨"system", "w10s"⟩, ⟨"user", "w10q"⟩]
    ⟨"system", "w10s"⟩ (by decide) (by decide) (by decide)
